import Mathlib

/-!
Verification of the kernel execution and message-streaming subsystem of
gui-executor (src/gui_executor/kernel.py, client.py, view.py).

The development shallowly embeds:
  * `remove_ansi_escape` and `decode_traceback` (utils.py / kernel.py),
  * `MyKernel._decode_io_msg_content` (kernel.py), the output classifier,
  * `MyClient.wait_for_ready` / `MyClient.start_channels` (client.py),
  * the message loop of `FunctionRunnableKernel.run`, together with
    `handle_input_request` and `collect_response_payload` (view.py).

Interactions with the kernel are modelled as explicit scripts: every call of
`get_iopub_msg(timeout=1.0)` in the loop consumes one `IopubRead` entry, which
records whether the call returned a message, timed out (`queue.Empty`, also
recording the outcome of the subsequent `get_stdin_msg(timeout=0.1)` poll),
or raised some other exception.  Qt signal emissions become an ordered list
of `Event`s; calls of `client.input(...)` become an ordered list of sent
input strings.
-/

/-- A byte in the parameter range `[0-?]` (0x30-0x3F) of the ANSI-escape
regular expression in `utils.remove_ansi_escape`. -/
def is_param_byte (c : Char) : Bool :=
  0x30 ≤ c.toNat && c.toNat ≤ 0x3F

/-- A byte in the intermediate range `[ -\/]` (0x20-0x2F) of the ANSI-escape
regular expression. -/
def is_inter_byte (c : Char) : Bool :=
  0x20 ≤ c.toNat && c.toNat ≤ 0x2F

/-- A byte in the final range `[@-~]` (0x40-0x7E) of the ANSI-escape
regular expression. -/
def is_final_byte (c : Char) : Bool :=
  0x40 ≤ c.toNat && c.toNat ≤ 0x7E

/-- After the prefix `\x9B` or `\x1B[` has been consumed, try to match
`[0-?]*[ -\/]*[@-~]`; the three character classes are pairwise disjoint, so
the greedy match of the regular expression is deterministic.  Returns the
remaining characters on success. -/
def csi_match_tail (cs : List Char) : Option (List Char) :=
  let cs1 := cs.dropWhile is_param_byte
  let cs2 := cs1.dropWhile is_inter_byte
  match cs2 with
  | c :: rest => if is_final_byte c then some rest else none
  | [] => none

/-- Fuel-indexed scanner for `re.compile(r'(\x9B|\x1B\[)[0-?]*[ -\/]*[@-~]').sub('', line)`:
at every position a match attempt is made; on success the matched escape
sequence is dropped, otherwise the character is kept.  Each step consumes at
least one character, so fuel equal to the input length suffices. -/
def remove_ansi_escape_aux : Nat → List Char → List Char
  | 0, cs => cs
  | _ + 1, [] => []
  | n + 1, c :: cs =>
    if c = '\x9B' then
      match csi_match_tail cs with
      | some rest => remove_ansi_escape_aux n rest
      | none => c :: remove_ansi_escape_aux n cs
    else if c = '\x1B' then
      match cs with
      | '[' :: cs2 =>
        match csi_match_tail cs2 with
        | some rest => remove_ansi_escape_aux n rest
        | none => c :: remove_ansi_escape_aux n cs
      | _ => c :: remove_ansi_escape_aux n cs
    else c :: remove_ansi_escape_aux n cs

/-- `utils.remove_ansi_escape(line)`: returns a new line with all ANSI escape
sequences removed. -/
def remove_ansi_escape (line : String) : String :=
  String.mk (remove_ansi_escape_aux line.length line.toList)

/-- `kernel.decode_traceback(traceback)`: `remove_ansi_escape('\n'.join(traceback))`.
The argument is the list of traceback lines carried by a kernel message. -/
def decode_traceback (traceback : List String) : String :=
  remove_ansi_escape (String.intercalate "\n" traceback)

/-- Python `str.rstrip()` with no argument: trailing whitespace removed. -/
def py_rstrip (s : String) : String :=
  String.mk ((s.toList.reverse.dropWhile Char.isWhitespace).reverse)

/-- The `content` dictionary of a kernel message, with the keys inspected by
the classifier and by the streaming loop; a `none` field models an absent
key. `data` models the mimetype-to-payload dictionary `content['data']`. -/
structure IoContent where
  execution_state : Option String := none
  text : Option String := none
  data : Option (List (String × String)) := none
  name : Option String := none
  traceback : Option (List String) := none
deriving DecidableEq, Repr

/-- `MyKernel._decode_io_msg_content(content)` (kernel.py).  An `Except.error k`
models the `KeyError(k)` the Python code raises when it indexes a missing
key inside a taken branch. -/
def decode_io_msg_content (content : IoContent) : Except String String :=
  match content.data with
  | some d =>
    match d.lookup "text/plain" with
    | some v => Except.ok v
    | none => Except.error "text/plain"
  | none =>
    if content.name = some "stdout" then
      match content.text with
      | some t => Except.ok t
      | none => Except.error "text"
    else
      match content.traceback with
      | some tb => Except.ok (decode_traceback tb)
      | none => Except.ok ""

/-- One attempt of `self._client.get_shell_msg(timeout=1)` inside
`MyClient.wait_for_ready`: either a shell message with the given `msg_type`
arrived, or the attempt raised (swallowed by the bare `except`). -/
inductive ShellPoll
  | reply : String → ShellPoll
  | empty : ShellPoll
deriving DecidableEq, Repr

/-- The Python exception classes that matter to `MyClient.start_channels`. -/
inductive PyExn
  | runtimeError
  | timeoutError
  | attributeError
deriving DecidableEq, Repr

/-- `MyClient.wait_for_ready(timeout)` (client.py): repeatedly polls the shell
channel for a `kernel_info_reply`.  Exhaustion of the poll script models the
deadline `time.time() - start > timeout` passing, at which point the method
raises `TimeoutError` (not `RuntimeError`). -/
def wait_for_ready : List ShellPoll → Except PyExn Unit
  | [] => Except.error PyExn.timeoutError
  | ShellPoll.reply mt :: rest =>
    if mt = "kernel_info_reply" then Except.ok () else wait_for_ready rest
  | ShellPoll.empty :: rest => wait_for_ready rest

/-- `MyClient.start_channels` (client.py): starts the channels, then runs
`wait_for_ready`; `except RuntimeError` stops the channels before re-raising,
`except AttributeError` logs and re-raises without stopping them, and any
other exception propagates uncaught.  The result records whether the channels
are still open after the call, and which exception (if any) propagated. -/
def start_channels (polls : List ShellPoll) : Bool × Option PyExn :=
  match wait_for_ready polls with
  | Except.ok _ => (true, none)
  | Except.error PyExn.runtimeError => (false, some PyExn.runtimeError)
  | Except.error PyExn.attributeError => (true, some PyExn.attributeError)
  | Except.error PyExn.timeoutError => (true, some PyExn.timeoutError)

/-- The payload of a `signals.data.emit(...)` call, distinguishing how the
emitted object was built in view.py. -/
inductive Payload
  | str : String → Payload
  | ansiText : String → Payload
  | renderable : String → Payload
  | exn : String → Payload
deriving DecidableEq, Repr

/-- One Qt signal emission of `FunctionThreadSignals` during
`FunctionRunnableKernel.run`, in emission order. -/
inductive Event
  | data : Payload → Event
  | html : String → Event
  | png : String → Event
  | error : String → Event
  | input : String → Event
  | finished : Bool → Event
deriving DecidableEq, Repr

/-- Models `rich.markup.escape` (a third-party collaborator used at the
interface boundary): markup-opening brackets are escaped with a backslash. -/
def escape_markup (s : String) : String :=
  s.replace "[" "\x5c["

/-- Python `sub in s` on strings: substring containment. -/
def py_in (sub s : String) : Bool :=
  decide (sub.toList <:+: s.toList)

/-- The dedented error text emitted by `handle_input_request` when
`_check_for_input` is set and the prompt matches none of the expected
patterns (view.py). -/
def mismatch_error_text (prompt : String) (patterns : List String) : String :=
  "[red][bold]ERROR: [/]The input request prompt message doesn\x27t match any of the expected prompt messages.[/]\n" ++
  "[default]→ input prompt=\x27" ++ escape_markup prompt ++ "\x27[/]\n" ++
  "[default]→ expected=(" ++
  String.intercalate ", " (patterns.map fun x => "\x27" ++ escape_markup x ++ "\x27") ++
  ")[/]\n\n" ++
  "[blue]Ask the developer of the task to match up the input request patterns and the prompt.[/]\n"

/-- The dedented error text emitted by `handle_input_request` when the input
request carried no prompt (view.py). -/
def no_prompt_error_text : String :=
  "[red][bold]ERROR: [/]No prompt was given to the input request function.[/]\n" ++
  "An input request was detected from the Jupyter kernel, but no message was given to describe the \n" ++
  "request. Ask the developer of the task to pass a proper message to the input request.\n\n" ++
  "[blue]An empty string will be returned to the kernel.[/]\n"

/-- The outcome of the one shell-channel read in `collect_response_payload`:
either `queue.Empty` was raised after the timeout, or a shell message with
the given `msg_type`, `content['status']` and optional `content['traceback']`
arrived. -/
inductive ShellRead
  | empty : ShellRead
  | reply : String → String → Option (List String) → ShellRead
deriving DecidableEq, Repr

/-- The per-session fields of `FunctionRunnableKernel` consulted by the
message loop: the correlation id returned by `client.execute`, the
`_check_for_input` flag and `_input_patterns` list, and the behaviour of the
single `client.get_shell_msg(msg_id, timeout=timeout)` call made by
`collect_response_payload`. -/
structure SessionParams where
  msg_id : String
  check_for_input : Bool
  input_patterns : List String
  shell : ShellRead
deriving DecidableEq, Repr

/-- `FunctionRunnableKernel.collect_response_payload(client, msg_id, timeout)`
(view.py): the list of signal emissions it performs. -/
def collect_response_payload : ShellRead → List Event
  | ShellRead.empty =>
    [Event.data (Payload.str
      "[red]No result received from kernel, this might happen when kernel is interrupted.[/]")]
  | ShellRead.reply mt st tb =>
    if mt = "execute_reply" then
      if st = "error" then
        match tb with
        | some l =>
          [Event.data (Payload.str "status = \x27error\x27"),
           Event.data (Payload.ansiText (String.intercalate "\n" l))]
        | none => []
      else []
    else []

/-- `FunctionRunnableKernel.handle_input_request(prompt)` (view.py), with the
operator-answer queue modelled as the list `answers`.  Returns the emitted
events together with `some (reply, remaining answers)`; a `none` means the
prompt was non-empty but the queue was empty, i.e. the worker is blocked in
`self._input_queue.get()` (events already emitted before blocking). -/
def handle_input_request (p : SessionParams) (answers : List String)
    (prompt : String) : List Event × Option (String × List String) :=
  if prompt ≠ "" then
    let warn : List Event :=
      if p.check_for_input &&
          p.input_patterns.all (fun pat => !(py_in pat prompt)) then
        [Event.data (Payload.str (mismatch_error_text prompt p.input_patterns))]
      else []
    let evs := warn ++ [Event.data (Payload.str (escape_markup prompt)),
                        Event.input prompt]
    match answers with
    | a :: rest => (evs, some (a, rest))
    | [] => (evs, none)
  else
    ([Event.data (Payload.str no_prompt_error_text)], some ("", answers))

/-- One iopub message as seen by the loop: `parent_header.msg_id`, `msg_type`
and `content`. -/
structure IoMsg where
  parent_msg_id : String
  msg_type : String
  content : IoContent
deriving DecidableEq, Repr

/-- One stdin message as returned by `client.get_stdin_msg`: its `msg_type`,
its `parent_header.msg_id` (present on the wire, read by nobody in view.py)
and `content['prompt']` (the empty string models a missing or `None`
prompt, both falsy in the Python `if prompt:` test). -/
structure StdinMsg where
  msg_type : String
  parent_msg_id : String
  prompt : String
deriving DecidableEq, Repr

/-- The result of one `client.get_iopub_msg(msg_id, timeout=1.0)` call in the
loop of `FunctionRunnableKernel.run`: a message, a `queue.Empty` timeout
(carrying the outcome of the ensuing `client.get_stdin_msg(timeout=0.1)`
poll, `none` when that poll also raised `queue.Empty`), or any other
exception with its text. -/
inductive IopubRead
  | msg : IoMsg → IopubRead
  | empty : Option StdinMsg → IopubRead
  | exn : String → IopubRead
deriving DecidableEq, Repr

/-- What one iteration of the `while True` loop decides: continue with the
given inputs sent to the kernel and the remaining answer queue, break out of
the loop (idle status seen), or block forever on the operator-answer queue. -/
inductive IterOutcome
  | next : List String → List String → IterOutcome
  | brk : IterOutcome
  | blocked : IterOutcome
deriving DecidableEq, Repr

/-- The events emitted by the `display_data` branch of the loop (view.py):
`text/html` is preferred, then `image/png`, then `text/plain`. -/
def display_events (c : IoContent) : List Event :=
  match c.data with
  | none => []
  | some d =>
    match d.lookup "text/html" with
    | some v => [Event.html (py_rstrip v)]
    | none =>
      match d.lookup "image/png" with
      | some v => [Event.png v]
      | none =>
        match d.lookup "text/plain" with
        | some v => [Event.data (Payload.str (py_rstrip v))]
        | none => []

/-- One iteration of the `while True` loop of `FunctionRunnableKernel.run`
(view.py): the signal emissions of that iteration and the loop outcome. -/
def run_loop_iter (p : SessionParams) (answers : List String) :
    IopubRead → List Event × IterOutcome
  | IopubRead.msg m =>
    if m.parent_msg_id ≠ p.msg_id then
      ([], IterOutcome.next [] answers)
    else if m.msg_type = "stream" then
      (match m.content.text with
       | some t => [Event.data (Payload.str (py_rstrip t))]
       | none => [],
       IterOutcome.next [] answers)
    else if m.msg_type = "status" then
      match m.content.execution_state with
      | some es =>
        if es = "idle" then
          (collect_response_payload p.shell, IterOutcome.brk)
        else
          ([], IterOutcome.next [] answers)
      | none =>
        ([Event.data (Payload.exn "KeyError: \x27execution_state\x27")],
         IterOutcome.next [] answers)
    else if m.msg_type = "display_data" then
      (display_events m.content, IterOutcome.next [] answers)
    else if m.msg_type = "execute_input" then
      ([], IterOutcome.next [] answers)
    else if m.msg_type = "error" then
      (match m.content.traceback with
       | some tb => [Event.data (Payload.ansiText (String.intercalate "\n" tb))]
       | none => [],
       IterOutcome.next [] answers)
    else
      ([Event.error ("Unknown io_msg_type: " ++ m.msg_type)],
       IterOutcome.next [] answers)
  | IopubRead.empty stdin =>
    match stdin with
    | none => ([], IterOutcome.next [] answers)
    | some sm =>
      if sm.msg_type = "input_request" then
        match handle_input_request p answers sm.prompt with
        | (evs, some (resp, rest)) => (evs, IterOutcome.next [resp] rest)
        | (evs, none) => (evs, IterOutcome.blocked)
      else ([], IterOutcome.next [] answers)
  | IopubRead.exn e =>
    ([Event.data (Payload.exn e)], IterOutcome.next [] answers)

/-- Where a run of the loop ended: still polling (the script of channel reads
was exhausted without an idle status), blocked on the operator-answer queue,
finished through the idle-status break, or aborted because `client.connect()`
raised. -/
inductive RunStatus
  | streaming
  | blockedOnInput
  | done
  | connectFailed
deriving DecidableEq, Repr

/-- The observable outcome of a run: the emitted signals in order, the input
strings sent to the kernel via `client.input` in order, and where the run
ended. -/
structure RunResult where
  events : List Event
  inputs : List String
  status : RunStatus
deriving DecidableEq, Repr

/-- The `while True` loop of `FunctionRunnableKernel.run`, driven by the
script of iopub read results. -/
def run_loop (p : SessionParams) : List String → List IopubRead → RunResult
  | _, [] => ⟨[], [], RunStatus.streaming⟩
  | answers, r :: rest =>
    match run_loop_iter p answers r with
    | (evs, IterOutcome.brk) => ⟨evs, [], RunStatus.done⟩
    | (evs, IterOutcome.blocked) => ⟨evs, [], RunStatus.blockedOnInput⟩
    | (evs, IterOutcome.next ins answers2) =>
      let res := run_loop p answers2 rest
      ⟨evs ++ res.events, ins ++ res.inputs, res.status⟩

/-- The four preamble `data` emissions at the start of
`FunctionRunnableKernel.run` (view.py): the banner, the literal
"The code snippet:", the rendered snippet, and an empty line. -/
def pre_events (func_name snippet : String) : List Event :=
  [Event.data (Payload.str
     ("----- Running script \x27" ++ func_name ++ "\x27 in kernel")),
   Event.data (Payload.str "The code snippet:"),
   Event.data (Payload.renderable snippet),
   Event.data (Payload.str "")]

/-- `FunctionRunnableKernel.run` (view.py): the four preamble `data`
emissions, then either the `error` emission of a failed `client.connect()`
(the method returns, no `finished` signal), or the message loop followed —
only when the loop broke on an idle status — by
`self.signals.finished.emit(self, self.func_name, True)`. -/
def frk_run (func_name snippet : String) (connect_error : Option String)
    (p : SessionParams) (answers : List String) (script : List IopubRead) :
    RunResult :=
  match connect_error with
  | some e =>
    ⟨pre_events func_name snippet ++ [Event.error e], [],
     RunStatus.connectFailed⟩
  | none =>
    let res := run_loop p answers script
    match res.status with
    | RunStatus.done =>
      ⟨pre_events func_name snippet ++ res.events ++ [Event.finished true],
       res.inputs, RunStatus.done⟩
    | s => ⟨pre_events func_name snippet ++ res.events, res.inputs, s⟩

/-! ## Helper lemmas -/

lemma wait_for_ready_ne_runtime (polls : List ShellPoll) :
    wait_for_ready polls ≠ Except.error PyExn.runtimeError := by
  induction polls with
  | nil => simp [wait_for_ready]
  | cons h t ih =>
    cases h with
    | reply mt =>
      unfold wait_for_ready
      split <;> simp_all
    | empty => simpa [wait_for_ready] using ih

lemma finished_not_in_handle_input (p : SessionParams) (ans : List String)
    (prompt : String) (b : Bool) :
    Event.finished b ∉ (handle_input_request p ans prompt).1 := by
  by_cases hp : prompt = ""
  · simp [handle_input_request, hp]
  · by_cases hw : (p.check_for_input &&
        p.input_patterns.all fun pat => !(py_in pat prompt)) = true <;>
      cases ans <;> simp [handle_input_request, hp, hw]

lemma finished_not_in_collect (s : ShellRead) (b : Bool) :
    Event.finished b ∉ collect_response_payload s := by
  cases s with
  | empty => simp [collect_response_payload]
  | reply mt st tb =>
    cases tb <;> by_cases h1 : mt = "execute_reply" <;> by_cases h2 : st = "error" <;>
      simp [collect_response_payload, h1, h2]

lemma finished_not_in_display (c : IoContent) (b : Bool) :
    Event.finished b ∉ display_events c := by
  unfold display_events
  split
  · simp
  · split
    · simp
    · split
      · simp
      · split <;> simp

lemma finished_not_in_iter (p : SessionParams) (ans : List String)
    (r : IopubRead) (b : Bool) :
    Event.finished b ∉ (run_loop_iter p ans r).1 := by
  cases r with
  | msg m =>
    by_cases h0 : m.parent_msg_id = p.msg_id
    case neg => simp [run_loop_iter, h0]
    case pos =>
      by_cases h1 : m.msg_type = "stream"
      · cases htext : m.content.text <;> simp [run_loop_iter, h0, h1, htext]
      · by_cases h2 : m.msg_type = "status"
        · cases hes : m.content.execution_state with
          | none => simp [run_loop_iter, h0, h1, h2, hes]
          | some es =>
            by_cases h3 : es = "idle"
            · simpa [run_loop_iter, h0, h1, h2, hes, h3] using
                finished_not_in_collect p.shell b
            · simp [run_loop_iter, h0, h1, h2, hes, h3]
        · by_cases h4 : m.msg_type = "display_data"
          · simpa [run_loop_iter, h0, h1, h2, h4] using
              finished_not_in_display m.content b
          · by_cases h5 : m.msg_type = "execute_input"
            · simp [run_loop_iter, h0, h1, h2, h4, h5]
            · by_cases h6 : m.msg_type = "error"
              · cases htb : m.content.traceback <;>
                  simp [run_loop_iter, h0, h1, h2, h4, h5, h6, htb]
              · simp [run_loop_iter, h0, h1, h2, h4, h5, h6]
  | empty stdin =>
    cases stdin with
    | none => simp [run_loop_iter]
    | some sm =>
      by_cases h : sm.msg_type = "input_request"
      · have hni := finished_not_in_handle_input p ans sm.prompt b
        cases hh : handle_input_request p ans sm.prompt with
        | mk evs o =>
          rw [hh] at hni
          simp only at hni
          cases o with
          | some pr =>
            cases pr with
            | mk resp rest => simp [run_loop_iter, h, hh]; simpa using hni
          | none => simp [run_loop_iter, h, hh]; simpa using hni
      · simp [run_loop_iter, h]
  | exn e => simp [run_loop_iter]

lemma finished_not_in_loop (p : SessionParams) :
    ∀ (ans : List String) (script : List IopubRead) (b : Bool),
      Event.finished b ∉ (run_loop p ans script).events := by
  intro ans script
  induction script generalizing ans with
  | nil => intro b; simp [run_loop]
  | cons r rest ih =>
    intro b
    have hni := finished_not_in_iter p ans r b
    unfold run_loop
    cases hit : run_loop_iter p ans r with
    | mk evs out =>
      rw [hit] at hni
      cases out with
      | brk => simpa using hni
      | blocked => simpa using hni
      | next ins ans2 =>
        simp only [List.mem_append, not_or]
        exact ⟨hni, ih ans2 b⟩

lemma append_singleton_eq {α : Type} (x y : α) :
    ∀ (l1 l l2 : List α), l ++ [x] = l1 ++ y :: l2 → y ∉ l → l2 = [] := by
  intro l1
  induction l1 with
  | nil =>
    intro l l2 h hy
    cases l with
    | nil =>
      simp only [List.nil_append] at h
      injection h with h1 h2
      exact h2.symm
    | cons c t =>
      simp only [List.cons_append, List.nil_append] at h
      injection h with h1 h2
      subst h1
      exact absurd (List.mem_cons_self _ _) hy
  | cons a t1 ih =>
    intro l l2 h hy
    cases l with
    | nil =>
      simp only [List.nil_append, List.cons_append] at h
      injection h with h1 h2
      exact absurd h2.symm (by simp)
    | cons c t =>
      simp only [List.cons_append] at h
      injection h with h1 h2
      exact ih t l2 h2 (fun hm => hy (List.mem_cons_of_mem _ hm))

/-! ## Claim theorems -/

/-- C2: the claim says every channel opened by a timed-out `connect` is closed
before the error propagates.  The code violates this: `MyClient.wait_for_ready`
raises `TimeoutError`, which the `except RuntimeError` cleanup in
`start_channels` never catches — in fact no execution of `start_channels`
ever reaches the `stop_channels` cleanup, so the channels always stay open;
in particular a full timeout (no `kernel_info_reply` before the deadline)
propagates `TimeoutError` with the channels still open. -/
theorem c2_channels_left_open :
    (∀ polls : List ShellPoll, (start_channels polls).1 = true) ∧
    start_channels [ShellPoll.empty] = (true, some PyExn.timeoutError) := by
  constructor
  · intro polls
    have h := wait_for_ready_ne_runtime polls
    unfold start_channels
    cases hw : wait_for_ready polls with
    | ok u => simp
    | error e => cases e <;> simp_all
  · rfl

/-- C3: an iopub message whose correlation id (`parent_header.msg_id`)
differs from the active request id produces no Output Event and cannot
terminate the session: the iteration is a no-op and the run over the rest of
the script is unchanged.  The filter is applied before any content
inspection, so this holds for arbitrary message type and content. -/
theorem c3_correlation_filter (p : SessionParams) (ans : List String)
    (m : IoMsg) (rest : List IopubRead)
    (h : m.parent_msg_id ≠ p.msg_id) :
    run_loop_iter p ans (IopubRead.msg m) = ([], IterOutcome.next [] ans) ∧
    run_loop p ans (IopubRead.msg m :: rest) = run_loop p ans rest := by
  have h1 : run_loop_iter p ans (IopubRead.msg m) = ([], IterOutcome.next [] ans) := by
    simp [run_loop_iter, h]
  refine ⟨h1, ?_⟩
  simp [run_loop, h1]

/-- Witness for C3 at a concrete input: even an idle status message is
discarded when its correlation id is "B" while the session is waiting on
"A". -/
theorem c3_correlation_filter_witness :
    run_loop_iter ⟨"A", false, [], ShellRead.empty⟩ []
        (IopubRead.msg ⟨"B", "status", { execution_state := some "idle" }⟩) =
      ([], IterOutcome.next [] []) ∧
    run_loop ⟨"A", false, [], ShellRead.empty⟩ []
        [IopubRead.msg ⟨"B", "status", { execution_state := some "idle" }⟩] =
      run_loop ⟨"A", false, [], ShellRead.empty⟩ [] [] :=
  c3_correlation_filter _ _ _ _ (by decide)

/-- C4 counterexample: the claim says a content carrying a traceback list
always classifies as the stripped-and-joined error, regardless of other
keys.  In `MyKernel._decode_io_msg_content` the `data` branch is tested
first, so a content carrying both a `data['text/plain']` payload and a
traceback returns the plain text `"x"`, not the decoded traceback
`"boom"`. -/
theorem c4_counterexample :
    decode_io_msg_content
        { data := some [("text/plain", "x")],
          traceback := some ["\x1B[31mboom\x1B[0m"] } = Except.ok "x" ∧
    decode_traceback ["\x1B[31mboom\x1B[0m"] = "boom" ∧
    ("x" : String) ≠ "boom" := by
  refine ⟨rfl, rfl, by decide⟩

/-- C4 (amended): a content carrying a traceback list is classified as the
error text (ANSI escapes stripped, lines joined with newlines) only when it
carries no `data` payload and no stdout name marker; those two keys take
precedence over the traceback. -/
theorem c4_traceback_without_richer_keys (c : IoContent) (tb : List String)
    (h1 : c.traceback = some tb) (h2 : c.data = none)
    (h3 : c.name ≠ some "stdout") :
    decode_io_msg_content c = Except.ok (decode_traceback tb) := by
  unfold decode_io_msg_content
  rw [h2]
  simp [h3, h1]

/-- Witness for the amended C4 at a concrete input. -/
theorem c4_traceback_without_richer_keys_witness :
    decode_io_msg_content { traceback := some ["e"] } =
      Except.ok (decode_traceback ["e"]) :=
  c4_traceback_without_richer_keys { traceback := some ["e"] } ["e"]
    rfl rfl (by decide)

/-- C6: if every iopub read times out (`queue.Empty`) and every opportunistic
stdin poll also finds nothing, the loop emits nothing, sends nothing, and is
still streaming after any number `n` of iterations — timeouts alone never
drive the session to a terminal state. -/
theorem c6_timeout_tolerance (p : SessionParams) (ans : List String)
    (n : Nat) :
    run_loop p ans (List.replicate n (IopubRead.empty none)) =
      ⟨[], [], RunStatus.streaming⟩ := by
  induction n with
  | zero => rfl
  | succ k ih => simp [List.replicate, run_loop, run_loop_iter, ih]

/-- C1: the claim (and the `FunctionThreadSignals` docstring, which documents
the boolean of `finished` as "if the function was successfully executed,
i.e. no exception was raised") requires the terminal notification of the
`1/0` run to report failure.  Evaluating the embedded
`FunctionRunnableKernel.run` on the kernel traffic of `1/0` — busy status,
`execute_input`, an error message with the `ZeroDivisionError` traceback,
idle status, and an `execute_reply` with status `error` — shows the run
emits the traceback events and then ends with `finished(..., True)`:
view.py line 448 hard-codes `True` whatever the shell reply said. -/
theorem c1_zero_division_terminal_success :
    frk_run "func" "1/0" none
        ⟨"mid", false, [],
         ShellRead.reply "execute_reply" "error"
           (some ["ZeroDivisionError: division by zero"])⟩ []
        [IopubRead.msg ⟨"mid", "status", { execution_state := some "busy" }⟩,
         IopubRead.msg ⟨"mid", "execute_input", {}⟩,
         IopubRead.msg ⟨"mid", "error",
           { traceback := some ["ZeroDivisionError: division by zero"] }⟩,
         IopubRead.msg ⟨"mid", "status", { execution_state := some "idle" }⟩] =
      ⟨[Event.data (Payload.str "----- Running script \x27func\x27 in kernel"),
        Event.data (Payload.str "The code snippet:"),
        Event.data (Payload.renderable "1/0"),
        Event.data (Payload.str ""),
        Event.data (Payload.ansiText "ZeroDivisionError: division by zero"),
        Event.data (Payload.str "status = \x27error\x27"),
        Event.data (Payload.ansiText "ZeroDivisionError: division by zero"),
        Event.finished true],
       [], RunStatus.done⟩ := by
  rfl

/-- C5 counterexample: the claim says an exception raised while reading a
channel is emitted as an error Output Event and forces `DONE(failure)`,
without continuing the read loop.  Running the embedded loop on a script
where the first read raises and a stream message and idle status follow
shows the code instead emits the exception through the `data` signal,
keeps reading (the stream text "after" is still emitted), and terminates
with `finished(..., True)` — success, not failure. -/
theorem c5_counterexample :
    frk_run "f" "snip" none
        ⟨"m", false, [], ShellRead.reply "execute_reply" "ok" none⟩ []
        [IopubRead.exn "boom",
         IopubRead.msg ⟨"m", "stream", { text := some "after" }⟩,
         IopubRead.msg ⟨"m", "status", { execution_state := some "idle" }⟩] =
      ⟨[Event.data (Payload.str "----- Running script \x27f\x27 in kernel"),
        Event.data (Payload.str "The code snippet:"),
        Event.data (Payload.renderable "snip"),
        Event.data (Payload.str ""),
        Event.data (Payload.exn "boom"),
        Event.data (Payload.str "after"),
        Event.finished true],
       [], RunStatus.done⟩ ∧
    Event.finished false ∉
      [Event.data (Payload.str "----- Running script \x27f\x27 in kernel"),
       Event.data (Payload.str "The code snippet:"),
       Event.data (Payload.renderable "snip"),
       Event.data (Payload.str ""),
       Event.data (Payload.exn "boom"),
       Event.data (Payload.str "after"),
       Event.finished true] := by
  refine ⟨?_, ?_⟩
  · rfl
  · decide

/-- C5 (amended): an exception raised while reading the channel is caught
and emitted through the `data` signal as an Output Event carrying the
exception, after which the read loop continues with the next receive — the
iteration neither terminates the session nor changes the answer queue, so
the run behaves on the remaining script exactly as it would have without
the exception. -/
theorem c5_exception_continues_loop (p : SessionParams) (ans : List String)
    (e : String) (rest : List IopubRead) :
    run_loop p ans (IopubRead.exn e :: rest) =
      ⟨Event.data (Payload.exn e) :: (run_loop p ans rest).events,
       (run_loop p ans rest).inputs, (run_loop p ans rest).status⟩ := by
  simp [run_loop, run_loop_iter]

/-- C7: an `input_request` with a non-empty prompt surfaces the prompt (the
escaped prompt on the `data` signal, the raw prompt on the `input` signal);
with no operator answer available the run blocks there and consumes none of
the remaining iopub script; with answer "y" available, exactly one
`client.input("y")` call is made and the run continues with the remaining
script. -/
theorem c7_input_round_trip (p : SessionParams) (ans : List String)
    (rest : List IopubRead) (pid prompt : String)
    (hci : p.check_for_input = false) (hp : prompt ≠ "") :
    run_loop p [] (IopubRead.empty (some ⟨"input_request", pid, prompt⟩) :: rest) =
      ⟨[Event.data (Payload.str (escape_markup prompt)), Event.input prompt],
       [], RunStatus.blockedOnInput⟩ ∧
    run_loop p ("y" :: ans) (IopubRead.empty (some ⟨"input_request", pid, prompt⟩) :: rest) =
      ⟨[Event.data (Payload.str (escape_markup prompt)), Event.input prompt] ++
         (run_loop p ans rest).events,
       "y" :: (run_loop p ans rest).inputs,
       (run_loop p ans rest).status⟩ := by
  constructor
  · simp [run_loop, run_loop_iter, handle_input_request, hp, hci]
  · simp [run_loop, run_loop_iter, handle_input_request, hp, hci]

/-- Witness for C7 at the concrete prompt of testable property P3. -/
theorem c7_input_round_trip_witness :
    run_loop ⟨"m", false, [], ShellRead.empty⟩ []
        [IopubRead.empty (some ⟨"input_request", "x", "continue? "⟩)] =
      ⟨[Event.data (Payload.str (escape_markup "continue? ")),
        Event.input "continue? "],
       [], RunStatus.blockedOnInput⟩ ∧
    run_loop ⟨"m", false, [], ShellRead.empty⟩ ["y"]
        [IopubRead.empty (some ⟨"input_request", "x", "continue? "⟩)] =
      ⟨[Event.data (Payload.str (escape_markup "continue? ")),
        Event.input "continue? "] ++
         (run_loop ⟨"m", false, [], ShellRead.empty⟩ [] []).events,
       "y" :: (run_loop ⟨"m", false, [], ShellRead.empty⟩ [] []).inputs,
       (run_loop ⟨"m", false, [], ShellRead.empty⟩ [] []).status⟩ :=
  c7_input_round_trip ⟨"m", false, [], ShellRead.empty⟩ [] [] "x" "continue? "
    rfl (by decide)

/-- C8: no Output Event is delivered after the terminal completion
notification: whenever the event trace of `FunctionRunnableKernel.run`
contains a `finished` emission, nothing follows it — `finished` is emitted
at most once, as the very last signal of the run (runs that never emit
`finished`, such as a failed connect, satisfy this vacuously). -/
theorem c8_no_event_after_finished (fn sn : String) (ce : Option String)
    (p : SessionParams) (ans : List String) (script : List IopubRead)
    (l1 l2 : List Event) (b : Bool)
    (h : (frk_run fn sn ce p ans script).events = l1 ++ Event.finished b :: l2) :
    l2 = [] := by
  have hpre : ∀ b2 : Bool, Event.finished b2 ∉ pre_events fn sn := by
    intro b2
    simp [pre_events]
  cases ce with
  | some e =>
    exfalso
    have hev : (frk_run fn sn (some e) p ans script).events =
        pre_events fn sn ++ [Event.error e] := by
      simp [frk_run]
    rw [hev] at h
    have hm : Event.finished b ∈ pre_events fn sn ++ [Event.error e] := by
      rw [h]
      simp
    rcases List.mem_append.mp hm with hm1 | hm2
    · exact hpre b hm1
    · simp at hm2
  | none =>
    cases hst : (run_loop p ans script).status with
    | done =>
      have hev : (frk_run fn sn none p ans script).events =
          (pre_events fn sn ++ (run_loop p ans script).events) ++
            [Event.finished true] := by
        simp [frk_run, hst, List.append_assoc]
      rw [hev] at h
      apply append_singleton_eq (Event.finished true) (Event.finished b) l1 _ l2 h
      intro hm
      rcases List.mem_append.mp hm with hm1 | hm2
      · exact hpre b hm1
      · exact finished_not_in_loop p ans script b hm2
    | streaming =>
      exfalso
      have hev : (frk_run fn sn none p ans script).events =
          pre_events fn sn ++ (run_loop p ans script).events := by
        simp [frk_run, hst]
      rw [hev] at h
      have hm : Event.finished b ∈
          pre_events fn sn ++ (run_loop p ans script).events := by
        rw [h]
        simp
      rcases List.mem_append.mp hm with hm1 | hm2
      · exact hpre b hm1
      · exact finished_not_in_loop p ans script b hm2
    | blockedOnInput =>
      exfalso
      have hev : (frk_run fn sn none p ans script).events =
          pre_events fn sn ++ (run_loop p ans script).events := by
        simp [frk_run, hst]
      rw [hev] at h
      have hm : Event.finished b ∈
          pre_events fn sn ++ (run_loop p ans script).events := by
        rw [h]
        simp
      rcases List.mem_append.mp hm with hm1 | hm2
      · exact hpre b hm1
      · exact finished_not_in_loop p ans script b hm2
    | connectFailed =>
      exfalso
      have hev : (frk_run fn sn none p ans script).events =
          pre_events fn sn ++ (run_loop p ans script).events := by
        simp [frk_run, hst]
      rw [hev] at h
      have hm : Event.finished b ∈
          pre_events fn sn ++ (run_loop p ans script).events := by
        rw [h]
        simp
      rcases List.mem_append.mp hm with hm1 | hm2
      · exact hpre b hm1
      · exact finished_not_in_loop p ans script b hm2

/-- Witness for C8 at a concrete run that does emit `finished`: the events
before the terminal emission are the preamble and the no-result warning. -/
theorem c8_no_event_after_finished_witness : ([] : List Event) = [] :=
  c8_no_event_after_finished "f" "s" none ⟨"m", false, [], ShellRead.empty⟩ []
    [IopubRead.msg ⟨"m", "status", { execution_state := some "idle" }⟩]
    (pre_events "f" "s" ++
      [Event.data (Payload.str
        "[red]No result received from kernel, this might happen when kernel is interrupted.[/]")])
    [] true (by rfl)

/-- C9 (implicit): stdin messages are not correlation-filtered.  The loop
iteration on a polled stdin message never consults the message's
`parent_header.msg_id` (replacing it changes nothing), and an
`input_request` whose correlation id differs from the active request is
still serviced and answered with the queued operator answer. -/
theorem c9_stdin_not_correlation_filtered (p : SessionParams)
    (ans : List String) (a mt pid1 pid2 prompt : String)
    (hci : p.check_for_input = false) (hp : prompt ≠ "")
    (hne : pid1 ≠ p.msg_id) :
    run_loop_iter p ans (IopubRead.empty (some ⟨mt, pid1, prompt⟩)) =
      run_loop_iter p ans (IopubRead.empty (some ⟨mt, pid2, prompt⟩)) ∧
    run_loop_iter p (a :: ans)
        (IopubRead.empty (some ⟨"input_request", pid1, prompt⟩)) =
      ([Event.data (Payload.str (escape_markup prompt)), Event.input prompt],
       IterOutcome.next [a] ans) := by
  refine ⟨rfl, ?_⟩
  simp [run_loop_iter, handle_input_request, hp, hci]

/-- Witness for C9 at a concrete input: the input request correlated to "X"
is serviced although the session is waiting on "m". -/
theorem c9_stdin_not_correlation_filtered_witness :
    run_loop_iter ⟨"m", false, [], ShellRead.empty⟩ []
        (IopubRead.empty (some ⟨"status", "X", "continue? "⟩)) =
      run_loop_iter ⟨"m", false, [], ShellRead.empty⟩ []
        (IopubRead.empty (some ⟨"status", "Y", "continue? "⟩)) ∧
    run_loop_iter ⟨"m", false, [], ShellRead.empty⟩ ["y"]
        (IopubRead.empty (some ⟨"input_request", "X", "continue? "⟩)) =
      ([Event.data (Payload.str (escape_markup "continue? ")),
        Event.input "continue? "],
       IterOutcome.next ["y"] []) :=
  c9_stdin_not_correlation_filtered ⟨"m", false, [], ShellRead.empty⟩ []
    "y" "status" "X" "Y" "continue? " rfl (by decide) (by decide)

/-- C10 (implicit): an `input_request` whose prompt is empty (or `None`) is
answered immediately with the empty string — the only emission is the
missing-prompt error text, no `input` prompt notification is emitted, and
the operator-answer queue is left untouched; only a non-empty prompt with
no answer available blocks the worker on the queue. -/
theorem c10_empty_prompt_immediate_reply (p : SessionParams)
    (ans : List String) (pid prompt : String) (hp : prompt ≠ "") :
    run_loop_iter p ans (IopubRead.empty (some ⟨"input_request", pid, ""⟩)) =
      ([Event.data (Payload.str no_prompt_error_text)],
       IterOutcome.next [""] ans) ∧
    (run_loop_iter p [] (IopubRead.empty (some ⟨"input_request", pid, prompt⟩))).2 =
      IterOutcome.blocked := by
  constructor
  · simp [run_loop_iter, handle_input_request]
  · simp [run_loop_iter, handle_input_request, hp]

/-- Witness for C10 at concrete inputs. -/
theorem c10_empty_prompt_immediate_reply_witness :
    run_loop_iter ⟨"m", false, [], ShellRead.empty⟩ ["queued"]
        (IopubRead.empty (some ⟨"input_request", "X", ""⟩)) =
      ([Event.data (Payload.str no_prompt_error_text)],
       IterOutcome.next [""] ["queued"]) ∧
    (run_loop_iter ⟨"m", false, [], ShellRead.empty⟩ []
        (IopubRead.empty (some ⟨"input_request", "X", "continue? "⟩))).2 =
      IterOutcome.blocked :=
  c10_empty_prompt_immediate_reply ⟨"m", false, [], ShellRead.empty⟩
    ["queued"] "X" "continue? " (by decide)
